import Mathlib

/-!
Verification of the TikTok Ads intake agent (`tiktok_ads_agent.py`).

The Python source is shallowly embedded below.  Randomness in the source
(`random.random`, `random.randint`, `random.choice`) is made explicit: each
random draw becomes a parameter of the embedded function (a `Bool` for a
success/failure coin, a `Nat` seed fed through the same affine map that
`random.randint` applies).  Dictionary results become Lean structures with
`Option` fields; a Python `KeyError` on `tool_args[...]` becomes
`Except.error`.  The dispatcher additionally returns the list of backend
calls it made, so that "never reaches the backend" claims are statable.
-/

namespace TikTokAgent

/-- Python `s.startswith(p)`, embedded on the character list of the string. -/
def pyStartswith (s p : String) : Bool :=
  p.data.isPrefixOf s.data

/-- Python `s.lower()` (ASCII-adequate for the tokens used here). -/
def pyLower (s : String) : String :=
  ⟨s.data.map Char.toLower⟩

/-- Python `sub in s` (substring containment). -/
def pyContains (s sub : String) : Bool :=
  decide (sub.data <:+: s.data)

/-- Python `s.split('_')[-1]`: last chunk of the id after splitting on `_`. -/
def pySplitLast (s : String) : String :=
  (s.splitOn "_").getLastD ""

/-- `random.randint(15, 60)` : the draw is `15 + n % 46` for a seed `n`. -/
def randint15_60 (n : Nat) : Nat := 15 + n % 46

/-- `random.randint(1000, 9999)`. -/
def randint1000_9999 (n : Nat) : Nat := 1000 + n % 9000

/-- `random.randint(100000, 999999)`. -/
def randint100000_999999 (n : Nat) : Nat := 100000 + n % 900000

/-- `random.randint(10000, 99999)`. -/
def randint10000_99999 (n : Nat) : Nat := 10000 + n % 90000

/-- `MockTikTokAPI.VALID_MUSIC_IDS`. -/
def VALID_MUSIC_IDS : List String :=
  ["music_123", "music_456", "music_789",
   "music_pop_2024", "music_trending_001",
   "music_viral_summer", "music_hiphop_beat"]

/-- `MockTikTokAPI.VALID_TOKENS`. -/
def VALID_TOKENS : List String :=
  ["mock_token_12345", "act.demo.token.tiktok.ads.2024"]

/-- Result dictionary of `MockTikTokAPI.validate_token`. -/
structure TokenValidation where
  valid : Bool
  advertiser_id : Option String := none
  scopes : List String := []
  error : Option String := none
  message : Option String := none
deriving DecidableEq, Repr

/-- `MockTikTokAPI.validate_token` (source lines 52-68): deterministic. -/
def validate_token (token : String) : TokenValidation :=
  if token = "" then
    { valid := false, error := some "No access token provided" }
  else if VALID_TOKENS.contains token || pyStartswith token "act." then
    { valid := true
      advertiser_id := some "adv_123456"
      scopes := ["ad.create", "ad.read", "campaign.create"] }
  else if pyContains (pyLower token) "expired" then
    { valid := false, error := some "TOKEN_EXPIRED"
      message := some "Access token has expired" }
  else
    { valid := false, error := some "INVALID_TOKEN"
      message := some "Invalid access token" }

/-- Result dictionary of `MockTikTokAPI.validate_music_id`. -/
structure MusicValidation where
  valid : Bool
  music_title : Option String := none
  duration : Option Nat := none
  error_code : Option String := none
  message : String
deriving DecidableEq, Repr

/-- `MockTikTokAPI.validate_music_id` (source lines 70-91).  The seed `n`
stands for the `random.randint(15, 60)` draw; validity never depends on it. -/
def validate_music_id (music_id : String) (n : Nat) : MusicValidation :=
  if VALID_MUSIC_IDS.contains music_id then
    { valid := true
      music_title := some ("Track " ++ pySplitLast music_id)
      duration := some (randint15_60 n)
      message := "Music ID validated successfully" }
  else if pyStartswith music_id "music_" then
    { valid := false, error_code := some "MUSIC_NOT_FOUND"
      message := "The music ID does not exist in TikTok's library." }
  else
    { valid := false, error_code := some "INVALID_FORMAT"
      message := "Invalid music ID format. Music IDs should start with 'music_'" }

/-- Result dictionary of `MockTikTokAPI.upload_custom_music`. -/
structure UploadResult where
  success : Bool
  music_id : Option String := none
  error_code : Option String := none
  message : String
deriving DecidableEq, Repr

/-- `MockTikTokAPI.upload_custom_music` (source lines 93-109).  `succ` is the
`random.random() > 0.2` coin, `n` the seed of `random.randint(1000, 9999)`;
the `file_info` argument is ignored by the source body. -/
def upload_custom_music (file_info : String) (succ : Bool) (n : Nat) : UploadResult :=
  if succ then
    let mock_music_id := "music_custom_" ++ toString (randint1000_9999 n)
    { success := true
      music_id := some mock_music_id
      message := "Music uploaded successfully. Generated ID: " ++ mock_music_id }
  else
    { success := false, error_code := some "UPLOAD_FAILED"
      message := "Upload failed. Please ensure file is MP3/WAV and under 10MB." }

/-- The `creative` sub-object of the submitted payload. -/
structure Creative where
  text : String
  cta : String
  music_id : Option String
deriving DecidableEq, Repr

/-- The wire-level payload `{campaign_name, objective, creative}`. -/
structure Payload where
  campaign_name : String
  objective : String
  creative : Creative
deriving DecidableEq, Repr

/-- The `AdPayload` dataclass (source lines 20-27). -/
structure AdPayload where
  campaign_name : String
  objective : String
  ad_text : String
  cta : String
  music_id : Option String := none
  music_option : Option String := none
deriving DecidableEq, Repr

/-- `AdPayload.to_dict` (source lines 29-38). -/
def AdPayload.to_dict (p : AdPayload) : Payload :=
  { campaign_name := p.campaign_name
    objective := p.objective
    creative := { text := p.ad_text, cta := p.cta, music_id := p.music_id } }

/-- Result dictionary of `MockTikTokAPI.submit_ad`. -/
structure SubmitResult where
  success : Bool
  error_type : Option String := none
  error_code : Option String := none
  ad_id : Option String := none
  campaign_id : Option String := none
  message : String
  suggested_action : Option String := none
  retry_possible : Option Bool := none
  payload : Option Payload := none
deriving DecidableEq, Repr

/-- First element of `error_scenarios` in `submit_ad` (source lines 137-145). -/
def errScenarioValidation : SubmitResult :=
  { success := false
    error_type := some "VALIDATION_ERROR"
    error_code := some "INVALID_MUSIC_ID"
    message := "The provided music ID is invalid or no longer available."
    suggested_action := some "Choose a different music track or upload custom music."
    retry_possible := some true }

/-- Second element of `error_scenarios` in `submit_ad` (source lines 146-153). -/
def errScenarioRateLimit : SubmitResult :=
  { success := false
    error_type := some "RATE_LIMIT"
    error_code := some "TOO_MANY_REQUESTS"
    message := "Rate limit exceeded."
    suggested_action := some "Wait a few minutes before trying again."
    retry_possible := some true }

/-- `MockTikTokAPI.submit_ad` (source lines 111-155).  `succ` is the
`random.random() > 0.25` coin, `firstScenario` the `random.choice` over the
two error scenarios, `adN`/`cmpN` the seeds of the two `randint` draws. -/
def submit_ad (payload : Payload) (access_token : String)
    (succ firstScenario : Bool) (adN cmpN : Nat) : SubmitResult :=
  let token_validation := validate_token access_token
  if !token_validation.valid then
    { success := false
      error_type := some "AUTH_ERROR"
      error_code := some (token_validation.error.getD "INVALID_TOKEN")
      message := token_validation.message.getD "Invalid access token"
      suggested_action := some "Please obtain a valid access token through OAuth."
      retry_possible := some true }
  else if succ then
    { success := true
      ad_id := some ("ad_" ++ toString (randint100000_999999 adN))
      campaign_id := some ("cmp_" ++ toString (randint10000_99999 cmpN))
      message := "✅ Ad campaign created successfully!"
      payload := some payload }
  else if firstScenario then errScenarioValidation else errScenarioRateLimit

/-! ## Tool dispatcher (`TikTokAdAgent._execute_tool`, source lines 327-347) -/

/-- Tool arguments: the JSON object the planner sends, as an association list
of string-valued fields (all tool parameters in the schema are strings). -/
abbrev Args := List (String × String)

/-- Python `tool_args[key]`: raises `KeyError` when the key is absent. -/
def pyGetItem (args : Args) (key : String) : Except String String :=
  match List.lookup key args with
  | some v => Except.ok v
  | none => Except.error ("KeyError: " ++ key)

/-- Python `tool_args.get(key, default)`. -/
def pyGet (args : Args) (key : String) (default : String) : String :=
  (List.lookup key args).getD default

/-- Python `tool_args.get(key)` (returns `None` when absent). -/
def pyGetOpt (args : Args) (key : String) : Option String :=
  List.lookup key args

/-- A call made to the `MockTikTokAPI` backend, recorded so that claims of
the form "never reaches the backend" are statable. -/
inductive BackendCall where
  | validateMusicId (music_id : String)
  | uploadCustomMusic (file_info : String)
  | submitAd (payload : Payload) (access_token : String)
deriving DecidableEq, Repr

/-- The heterogeneous result dictionary returned by `_execute_tool`. -/
inductive ToolResult where
  | music (r : MusicValidation)
  | upload (r : UploadResult)
  | submit (r : SubmitResult)
  | unknownTool (error : String)
deriving DecidableEq, Repr

/-- The random draws a single dispatch may consume. -/
structure Rand where
  musicN : Nat := 0
  uploadSucc : Bool := true
  uploadN : Nat := 0
  submitSucc : Bool := true
  submitScenario : Bool := true
  adN : Nat := 0
  cmpN : Nat := 0
deriving DecidableEq, Repr

/-- `TikTokAdAgent._execute_tool` (source lines 327-347).  Returns the tool
result together with the list of backend calls made, or `Except.error` when
the Python code would raise (a `KeyError` on a missing required argument).
Note the source performs no draft validation before `submit_ad`. -/
def execute_tool (tool_name : String) (tool_args : Args)
    (access_token : String) (r : Rand) :
    Except String (ToolResult × List BackendCall) :=
  if tool_name = "validate_music_id" then do
    let mid ← pyGetItem tool_args "music_id"
    Except.ok (.music (validate_music_id mid r.musicN), [.validateMusicId mid])
  else if tool_name = "upload_custom_music" then
    let fi := pyGet tool_args "file_info" "user_upload.mp3"
    Except.ok (.upload (upload_custom_music fi r.uploadSucc r.uploadN),
               [.uploadCustomMusic fi])
  else if tool_name = "submit_tiktok_ad" then do
    let cn ← pyGetItem tool_args "campaign_name"
    let ob ← pyGetItem tool_args "objective"
    let tx ← pyGetItem tool_args "ad_text"
    let ct ← pyGetItem tool_args "cta"
    let payload : Payload :=
      { campaign_name := cn
        objective := ob
        creative := { text := tx, cta := ct, music_id := pyGetOpt tool_args "music_id" } }
    Except.ok (.submit (submit_ad payload access_token
                         r.submitSucc r.submitScenario r.adN r.cmpN),
               [.submitAd payload access_token])
  else
    Except.ok (.unknownTool "Unknown tool", [])

/-! ## Conversation state (`TikTokAdAgent`, source lines 239-242 and 448-484) -/

/-- One entry of `conversation_history`: the role-tagged message dictionaries
the orchestrator appends (source lines 352, 379, 407, 427). -/
inductive Turn where
  | user (content : String)
  | assistant (content : String)
  | assistantToolCalls (content : String) (calls : List (String × String × Args))
  | tool (tool_call_id : String) (content : String)
deriving Repr

/-- The session state the agent keeps: only the conversation history and the
access token (source lines 240-242).  There is no stored draft and no set of
validated music ids. -/
structure AgentState where
  access_token : String
  conversation_history : List Turn

/-- The `reset` branch of `TikTokAdAgent.start` (source lines 468-472):
`self.conversation_history = []` and nothing else. -/
def reset (s : AgentState) : AgentState :=
  { s with conversation_history := [] }

/-- The tool-execution loop of `TikTokAdAgent.chat` (source lines 394-411):
tools run sequentially, and the first Python exception aborts the loop. -/
def runToolsSeq (token : String) :
    List ((String × Args) × Rand) → Except String (List (ToolResult × List BackendCall))
  | [] => Except.ok []
  | ((name, args), r) :: rest =>
    match execute_tool name args token r with
    | Except.error e => Except.error e
    | Except.ok res =>
      match runToolsSeq token rest with
      | Except.error e => Except.error e
      | Except.ok more => Except.ok (res :: more)

/-- The `try/except` of `TikTokAdAgent.chat` (source lines 363 and 443-446):
any exception raised while executing tools is caught and turned into a
plain-text reply, never propagated to the caller. -/
def chatToolPhase (token : String) (calls : List ((String × Args) × Rand))
    (summary : String) : Except String String :=
  match runToolsSeq token calls with
  | Except.ok _ => Except.ok summary
  | Except.error e =>
      Except.ok ("❌ Error communicating with AI: " ++ e)

/-! ## Business Rule Validator

The spec describes a pure Business Rule Validator (`validate` and
`is_submittable`, spec section 4.2) that has no counterpart anywhere in the
source file: `_execute_tool` forwards `submit_tiktok_ad` to the backend with
no validation.  The definitions below are therefore modelled from the spec's
words, so that claims mentioning `validate`/`is_submittable` are statable. -/

/-- Modelled from the spec: the `ValidationError` taxonomy of spec section 3;
no corresponding type exists in the source. -/
inductive ValidationError where
  | MISSING_FIELD (field : String)
  | TOO_SHORT (field : String) (min : Nat)
  | TOO_LONG (field : String) (max : Nat)
  | INVALID_ENUM (field : String) (allowed : List String)
  | MUSIC_REQUIRED
  | MUSIC_NOT_VALIDATED
deriving DecidableEq, Repr

/-- Modelled from the spec: the Campaign Draft record of spec section 3 (all
fields nullable); no corresponding record exists in the source. -/
structure Draft where
  campaign_name : Option String := none
  objective : Option String := none
  ad_text : Option String := none
  cta : Option String := none
  music_option : Option String := none
  music_id : Option String := none
deriving DecidableEq, Repr

/-- Modelled from the spec: the music rule of spec section 4.2, shared by the
Conversions clause and the Traffic `existing` clause.  `validatedIds` is the
set of music ids "previously validated successfully" that the spec says the
Orchestrator tracks. -/
def musicExistingRule (d : Draft) (validatedIds : List String) : List ValidationError :=
  match d.music_id with
  | none => [.MUSIC_REQUIRED]
  | some mid => if mid ∈ validatedIds then [] else [.MUSIC_NOT_VALIDATED]

/-- Modelled from the spec: the pure Business Rule Validator `validate` of
spec section 4.2; absent from the source.  All rules are evaluated
independently and every violation is reported. -/
def validate (d : Draft) (validatedIds : List String) : List ValidationError :=
  (match d.campaign_name with
   | none => [.MISSING_FIELD "campaign_name"]
   | some s => if s.length < 3 then [.TOO_SHORT "campaign_name" 3] else []) ++
  (match d.objective with
   | none => [.MISSING_FIELD "objective"]
   | some s => if s = "Traffic" ∨ s = "Conversions" then []
               else [.INVALID_ENUM "objective" ["Traffic", "Conversions"]]) ++
  (match d.ad_text with
   | none => [.MISSING_FIELD "ad_text"]
   | some s => if s.length > 100 then [.TOO_LONG "ad_text" 100] else []) ++
  (match d.cta with
   | none => [.MISSING_FIELD "cta"]
   | some _ => []) ++
  (match d.music_option with
   | none => [.MISSING_FIELD "music_option"]
   | some _ => []) ++
  (if d.objective = some "Conversions" then
     match d.music_option with
     | some "existing" => musicExistingRule d validatedIds
     | some "custom" => []
     | _ => [.MUSIC_REQUIRED]
   else if d.objective = some "Traffic" ∧ d.music_option = some "existing" then
     musicExistingRule d validatedIds
   else [])

/-- Modelled from the spec: `is_submittable(draft) = validate(draft) is
empty` (spec section 4.2); absent from the source. -/
def is_submittable (d : Draft) (validatedIds : List String) : Bool :=
  validate d validatedIds = []

/-- Modelled from the spec: the Draft snapshot that spec section 4.3 says
the dispatcher builds from the `submit_tiktok_ad` invocation arguments;
the source builds a payload dictionary instead and never validates. -/
def draftOfArgs (args : Args) : Draft :=
  { campaign_name := pyGetOpt args "campaign_name"
    objective := pyGetOpt args "objective"
    ad_text := pyGetOpt args "ad_text"
    cta := pyGetOpt args "cta"
    music_option := pyGetOpt args "music_option"
    music_id := pyGetOpt args "music_id" }

/-! ## Helper lemmas -/

/-- A string extending `p` on the right starts with `p`. -/
lemma pyStartswith_append (p s : String) : pyStartswith (p ++ s) p = true := by
  simp [pyStartswith, String.data_append]

/-- Starting-with is inherited from a longer literal prefix. -/
lemma pyStartswith_of_prefix_trans (p q s : String) (h : p.data <+: q.data) :
    pyStartswith (q ++ s) p = true := by
  simp only [pyStartswith, String.data_append, List.isPrefixOf_iff_prefix]
  exact h.trans (List.prefix_append _ _)

/-- If `p` is not a character-prefix of `t`, then no extension of `p` equals `t`. -/
lemma append_ne_of_not_prefix_data (p s t : String) (h : ¬ p.data <+: t.data) :
    p ++ s ≠ t := by
  intro he
  exact h (he ▸ (String.data_append p s ▸ List.prefix_append p.data s.data))

/-- No freshly generated custom-music id is in the fixed library. -/
lemma custom_id_not_in_library (s : String) :
    VALID_MUSIC_IDS.contains ("music_custom_" ++ s) = false := by
  have h : ("music_custom_" ++ s) ∉ VALID_MUSIC_IDS := by
    intro hm
    simp only [VALID_MUSIC_IDS, List.mem_cons, List.not_mem_nil, or_false] at hm
    rcases hm with h | h | h | h | h | h | h <;>
      exact append_ne_of_not_prefix_data _ s _ (by decide) h
  simpa using h

end TikTokAgent

namespace TikTokAgent

/-! ## Claims -/

/-- C2: for every draft with `objective = Conversions` and
`music_option = none`, `validate` includes `MUSIC_REQUIRED` regardless of all
other fields (and of the validated-id set), and `is_submittable` is false. -/
theorem C2_conversions_music_none (d : Draft) (ids : List String)
    (ho : d.objective = some "Conversions") (hm : d.music_option = some "none") :
    ValidationError.MUSIC_REQUIRED ∈ validate d ids ∧
    is_submittable d ids = false := by
  have hmem : ValidationError.MUSIC_REQUIRED ∈ validate d ids := by
    simp only [validate, ho, hm, List.mem_append]
    right
    simp
  refine ⟨hmem, ?_⟩
  simp only [is_submittable, decide_eq_false_iff_not]
  exact fun hnil => (List.ne_nil_of_mem hmem) hnil

/-- Witness for C2 at a concrete draft whose other fields are all valid. -/
theorem C2_conversions_music_none_witness :
    ValidationError.MUSIC_REQUIRED ∈
      validate
        { campaign_name := some "SoluLab", objective := some "Conversions",
          ad_text := some "Check out our amazing AI solutions!",
          cta := some "Learn More", music_option := some "none" } ["music_123"] ∧
    is_submittable
        { campaign_name := some "SoluLab", objective := some "Conversions",
          ad_text := some "Check out our amazing AI solutions!",
          cta := some "Learn More", music_option := some "none" } ["music_123"] = false :=
  C2_conversions_music_none _ _ rfl rfl

/-- C5: `validate_token` (a pure function, hence deterministic) maps the
empty token to invalid/"No access token provided"; an allow-listed or
`act.`-prefixed token to valid with the fixed advertiser id and scope set; an
otherwise-unmatched token containing "expired" case-insensitively to
`TOKEN_EXPIRED`; and every other token to `INVALID_TOKEN`. -/
theorem C5_validate_token_cases (token : String) :
    (token = "" →
      validate_token token =
        { valid := false, error := some "No access token provided" }) ∧
    (token ≠ "" →
      (VALID_TOKENS.contains token || pyStartswith token "act.") = true →
      validate_token token =
        { valid := true, advertiser_id := some "adv_123456",
          scopes := ["ad.create", "ad.read", "campaign.create"] }) ∧
    (token ≠ "" →
      (VALID_TOKENS.contains token || pyStartswith token "act.") = false →
      pyContains (pyLower token) "expired" = true →
      validate_token token =
        { valid := false, error := some "TOKEN_EXPIRED",
          message := some "Access token has expired" }) ∧
    (token ≠ "" →
      (VALID_TOKENS.contains token || pyStartswith token "act.") = false →
      pyContains (pyLower token) "expired" = false →
      validate_token token =
        { valid := false, error := some "INVALID_TOKEN",
          message := some "Invalid access token" }) := by
  refine ⟨?_, ?_, ?_, ?_⟩ <;> intros <;> simp_all [validate_token]

/-- Witness for C5: both spec examples, `""` and `"token_expired_xyz"`. -/
theorem C5_validate_token_cases_witness :
    validate_token "" = { valid := false, error := some "No access token provided" } ∧
    validate_token "token_expired_xyz" =
      { valid := false, error := some "TOKEN_EXPIRED",
        message := some "Access token has expired" } :=
  ⟨(C5_validate_token_cases "").1 rfl,
   (C5_validate_token_cases "token_expired_xyz").2.2.1
     (by decide) (by decide) (by decide)⟩

/-- C6: `validate_music_id` maps a library id to valid with a title derived
from the id's suffix and a duration in [15, 60]; a non-library id starting
with `music_` to `MUSIC_NOT_FOUND`; any other id to `INVALID_FORMAT`; and
its validity verdict never depends on the random seed. -/
theorem C6_validate_music_id_cases (music_id : String) (n : Nat) :
    (VALID_MUSIC_IDS.contains music_id = true →
      validate_music_id music_id n =
        { valid := true, music_title := some ("Track " ++ pySplitLast music_id),
          duration := some (randint15_60 n),
          message := "Music ID validated successfully" } ∧
      15 ≤ randint15_60 n ∧ randint15_60 n ≤ 60) ∧
    (VALID_MUSIC_IDS.contains music_id = false →
      pyStartswith music_id "music_" = true →
      validate_music_id music_id n =
        { valid := false, error_code := some "MUSIC_NOT_FOUND",
          message := "The music ID does not exist in TikTok's library." }) ∧
    (VALID_MUSIC_IDS.contains music_id = false →
      pyStartswith music_id "music_" = false →
      validate_music_id music_id n =
        { valid := false, error_code := some "INVALID_FORMAT",
          message := "Invalid music ID format. Music IDs should start with 'music_'" }) ∧
    (∀ m, (validate_music_id music_id n).valid = (validate_music_id music_id m).valid) := by
  refine ⟨fun h => ⟨by simp_all [validate_music_id], by unfold randint15_60; omega⟩,
          fun h1 h2 => by simp_all [validate_music_id],
          fun h1 h2 => by simp_all [validate_music_id],
          fun m => ?_⟩
  by_cases h : music_id ∈ VALID_MUSIC_IDS <;> simp [validate_music_id, h]

/-- Witness for C6: the three spec examples `music_123`,
`music_unknown_999` and `xyz`, at seed 7. -/
theorem C6_validate_music_id_cases_witness :
    (validate_music_id "music_123" 7 =
      { valid := true, music_title := some ("Track " ++ pySplitLast "music_123"),
        duration := some (randint15_60 7),
        message := "Music ID validated successfully" } ∧
      15 ≤ randint15_60 7 ∧ randint15_60 7 ≤ 60) ∧
    validate_music_id "music_unknown_999" 7 =
      { valid := false, error_code := some "MUSIC_NOT_FOUND",
        message := "The music ID does not exist in TikTok's library." } ∧
    validate_music_id "xyz" 7 =
      { valid := false, error_code := some "INVALID_FORMAT",
        message := "Invalid music ID format. Music IDs should start with 'music_'" } :=
  ⟨(C6_validate_music_id_cases "music_123" 7).1 (by decide),
   (C6_validate_music_id_cases "music_unknown_999" 7).2.1 (by decide) (by decide),
   (C6_validate_music_id_cases "xyz" 7).2.2.1 (by decide) (by decide)⟩

/-- C4: `submit_ad` first re-validates the token; on an invalid token it
returns `AUTH_ERROR` with `retry_possible = true`, independently of every
random draw; on a valid token the result is either a success carrying a
generated `ad_id` and `campaign_id`, or exactly one of the two error
scenarios `VALIDATION_ERROR/INVALID_MUSIC_ID` and
`RATE_LIMIT/TOO_MANY_REQUESTS`, both with `retry_possible = true`. -/
theorem C4_submit_ad_cases (payload : Payload) (token : String)
    (succ fs : Bool) (adN cmpN : Nat) :
    ((validate_token token).valid = false →
      submit_ad payload token succ fs adN cmpN =
        { success := false, error_type := some "AUTH_ERROR",
          error_code := some ((validate_token token).error.getD "INVALID_TOKEN"),
          message := (validate_token token).message.getD "Invalid access token",
          suggested_action := some "Please obtain a valid access token through OAuth.",
          retry_possible := some true } ∧
      (∀ (succ2 fs2 : Bool) (adN2 cmpN2 : Nat),
        submit_ad payload token succ fs adN cmpN =
          submit_ad payload token succ2 fs2 adN2 cmpN2)) ∧
    ((validate_token token).valid = true →
      (submit_ad payload token succ fs adN cmpN =
        { success := true,
          ad_id := some ("ad_" ++ toString (randint100000_999999 adN)),
          campaign_id := some ("cmp_" ++ toString (randint10000_99999 cmpN)),
          message := "✅ Ad campaign created successfully!",
          payload := some payload } ∨
       submit_ad payload token succ fs adN cmpN = errScenarioValidation ∨
       submit_ad payload token succ fs adN cmpN = errScenarioRateLimit)) ∧
    errScenarioValidation.retry_possible = some true ∧
    errScenarioRateLimit.retry_possible = some true := by
  refine ⟨fun h => ⟨by simp [submit_ad, h], fun succ2 fs2 adN2 cmpN2 => by
            simp [submit_ad, h]⟩,
          fun h => ?_, rfl, rfl⟩
  cases succ <;> cases fs <;> simp [submit_ad, h, errScenarioValidation, errScenarioRateLimit]

/-- Witness for C4: an invalid token yields the deterministic `AUTH_ERROR`,
and a valid token yields one of the three allowed outcomes. -/
theorem C4_submit_ad_cases_witness :
    submit_ad { campaign_name := "SoluLab", objective := "Traffic",
                creative := { text := "t", cta := "Go", music_id := none } }
        "bad_token" true true 0 0 =
      { success := false, error_type := some "AUTH_ERROR",
        error_code := some ((validate_token "bad_token").error.getD "INVALID_TOKEN"),
        message := (validate_token "bad_token").message.getD "Invalid access token",
        suggested_action := some "Please obtain a valid access token through OAuth.",
        retry_possible := some true } ∧
    (submit_ad { campaign_name := "SoluLab", objective := "Traffic",
                 creative := { text := "t", cta := "Go", music_id := none } }
        "mock_token_12345" false true 0 0 =
      { success := true,
        ad_id := some ("ad_" ++ toString (randint100000_999999 0)),
        campaign_id := some ("cmp_" ++ toString (randint10000_99999 0)),
        message := "✅ Ad campaign created successfully!",
        payload := some { campaign_name := "SoluLab", objective := "Traffic",
                          creative := { text := "t", cta := "Go", music_id := none } } } ∨
     submit_ad { campaign_name := "SoluLab", objective := "Traffic",
                 creative := { text := "t", cta := "Go", music_id := none } }
        "mock_token_12345" false true 0 0 = errScenarioValidation ∨
     submit_ad { campaign_name := "SoluLab", objective := "Traffic",
                 creative := { text := "t", cta := "Go", music_id := none } }
        "mock_token_12345" false true 0 0 = errScenarioRateLimit) :=
  ⟨(C4_submit_ad_cases _ "bad_token" true true 0 0).1 (by decide) |>.1,
   (C4_submit_ad_cases _ "mock_token_12345" false true 0 0).2.1 (by decide)⟩

/-- C8: for every tool name outside the three known tools, the dispatcher
returns `{error: "Unknown tool"}` with an empty backend-call list, and the
chat turn that contains such a call still completes normally. -/
theorem C8_unknown_tool (name : String) (args : Args) (token : String)
    (r : Rand) (summary : String)
    (h1 : name ≠ "validate_music_id") (h2 : name ≠ "upload_custom_music")
    (h3 : name ≠ "submit_tiktok_ad") :
    execute_tool name args token r =
      Except.ok (.unknownTool "Unknown tool", []) ∧
    chatToolPhase token [((name, args), r)] summary = Except.ok summary := by
  have hx : execute_tool name args token r =
      Except.ok (.unknownTool "Unknown tool", []) := by
    simp [execute_tool, h1, h2, h3]
  exact ⟨hx, by simp [chatToolPhase, runToolsSeq, hx]⟩

/-- Witness for C8 at the unknown tool name `"delete_campaign"`. -/
theorem C8_unknown_tool_witness :
    execute_tool "delete_campaign" [("x", "y")] "act.demo.token.tiktok.ads.2024" {} =
      Except.ok (.unknownTool "Unknown tool", []) ∧
    chatToolPhase "act.demo.token.tiktok.ads.2024"
      [(("delete_campaign", [("x", "y")]), {})] "done" = Except.ok "done" :=
  C8_unknown_tool "delete_campaign" [("x", "y")] "act.demo.token.tiktok.ads.2024"
    {} "done" (by decide) (by decide) (by decide)

/-- C9: a `submit_tiktok_ad` invocation with the required arguments present
sends the backend exactly the payload
`{campaign_name, objective, creative: {text, cta, music_id}}`, where
`creative.text`/`creative.cta` are the `ad_text`/`cta` arguments and
`creative.music_id` is the `music_id` argument, `none` when absent. -/
theorem C9_payload_shape (args : Args) (token : String) (r : Rand)
    (cn ob tx ct : String)
    (h1 : pyGetOpt args "campaign_name" = some cn)
    (h2 : pyGetOpt args "objective" = some ob)
    (h3 : pyGetOpt args "ad_text" = some tx)
    (h4 : pyGetOpt args "cta" = some ct) :
    execute_tool "submit_tiktok_ad" args token r =
      Except.ok
        (.submit (submit_ad
            { campaign_name := cn, objective := ob,
              creative := { text := tx, cta := ct,
                            music_id := pyGetOpt args "music_id" } }
            token r.submitSucc r.submitScenario r.adN r.cmpN),
         [.submitAd
            { campaign_name := cn, objective := ob,
              creative := { text := tx, cta := ct,
                            music_id := pyGetOpt args "music_id" } } token]) := by
  simp only [pyGetOpt] at h1 h2 h3 h4
  simp only [execute_tool, pyGetItem, h1, h2, h3, h4, if_neg, if_pos,
    reduceIte, String.reduceEq]
  rfl

/-- Witness for C9: a concrete invocation without `music_id`, whose payload
carries `music_id = none`. -/
theorem C9_payload_shape_witness :
    execute_tool "submit_tiktok_ad"
        [("campaign_name", "SoluLab"), ("objective", "Traffic"),
         ("ad_text", "Check us out"), ("cta", "Learn More"),
         ("music_option", "none")]
        "act.demo.token.tiktok.ads.2024" {} =
      Except.ok
        (.submit (submit_ad
            { campaign_name := "SoluLab", objective := "Traffic",
              creative := { text := "Check us out", cta := "Learn More",
                            music_id := none } }
            "act.demo.token.tiktok.ads.2024" true true 0 0),
         [.submitAd
            { campaign_name := "SoluLab", objective := "Traffic",
              creative := { text := "Check us out", cta := "Learn More",
                            music_id := none } } "act.demo.token.tiktok.ads.2024"]) :=
  C9_payload_shape
    [("campaign_name", "SoluLab"), ("objective", "Traffic"),
     ("ad_text", "Check us out"), ("cta", "Learn More"), ("music_option", "none")]
    "act.demo.token.tiktok.ads.2024" {} "SoluLab" "Traffic" "Check us out"
    "Learn More" rfl rfl rfl rfl

/-- C10: every successful `upload_custom_music` result carries a music id
with prefix `music_custom_`, which is never in the fixed library, so
`validate_music_id` on a freshly uploaded id always answers
`valid = false` with `MUSIC_NOT_FOUND`. -/
theorem C10_uploaded_id_not_found (file_info : String) (succ : Bool) (n m : Nat)
    (h : (upload_custom_music file_info succ n).success = true) :
    ∃ mid, (upload_custom_music file_info succ n).music_id = some mid ∧
      pyStartswith mid "music_custom_" = true ∧
      VALID_MUSIC_IDS.contains mid = false ∧
      validate_music_id mid m =
        { valid := false, error_code := some "MUSIC_NOT_FOUND",
          message := "The music ID does not exist in TikTok's library." } := by
  cases succ with
  | false => simp [upload_custom_music] at h
  | true =>
    refine ⟨"music_custom_" ++ toString (randint1000_9999 n),
            by simp [upload_custom_music], pyStartswith_append _ _, ?_, ?_⟩
    · exact custom_id_not_in_library _
    · have hs : pyStartswith ("music_custom_" ++ toString (randint1000_9999 n))
          "music_" = true :=
        pyStartswith_of_prefix_trans "music_" "music_custom_" _ (by decide)
      have hc := custom_id_not_in_library (toString (randint1000_9999 n))
      simp_all [validate_music_id]

/-- Witness for C10 at seeds 5 and 9. -/
theorem C10_uploaded_id_not_found_witness :
    (upload_custom_music "song.mp3" true 5).success = true ∧
    ∃ mid, (upload_custom_music "song.mp3" true 5).music_id = some mid ∧
      pyStartswith mid "music_custom_" = true ∧
      VALID_MUSIC_IDS.contains mid = false ∧
      validate_music_id mid 9 =
        { valid := false, error_code := some "MUSIC_NOT_FOUND",
          message := "The music ID does not exist in TikTok's library." } :=
  ⟨rfl, C10_uploaded_id_not_found "song.mp3" true 5 9 rfl⟩

/-- C1 counterexample: a `submit_tiktok_ad` invocation whose argument set is
non-submittable (campaign name of length 2, `Conversions` with
`music_option = none`) is nevertheless forwarded to the backend: the
dispatcher's backend-call list is exactly the `submit_ad` call, not empty,
and the returned result is the backend's result, not a structured
rejection. -/
theorem C1_gate_counterexample :
    is_submittable
      (draftOfArgs
        [("campaign_name", "ab"), ("objective", "Conversions"),
         ("ad_text", "Great ad"), ("cta", "Shop Now"),
         ("music_option", "none")]) [] = false ∧
    (execute_tool "submit_tiktok_ad"
        [("campaign_name", "ab"), ("objective", "Conversions"),
         ("ad_text", "Great ad"), ("cta", "Shop Now"),
         ("music_option", "none")]
        "act.demo.token.tiktok.ads.2024" {}).map Prod.snd =
      Except.ok
        [BackendCall.submitAd
          { campaign_name := "ab", objective := "Conversions",
            creative := { text := "Great ad", cta := "Shop Now",
                          music_id := none } }
          "act.demo.token.tiktok.ads.2024"] :=
  ⟨rfl, rfl⟩

/-- C1 amended: the dispatcher applies no validation gate at all — every
`submit_tiktok_ad` invocation whose required argument keys are present is
forwarded to the Backend Simulator's `submit_ad`, whether or not the draft
built from the arguments is submittable. -/
theorem C1_no_gate (args : Args) (token : String) (r : Rand)
    (cn ob tx ct : String)
    (h1 : pyGetOpt args "campaign_name" = some cn)
    (h2 : pyGetOpt args "objective" = some ob)
    (h3 : pyGetOpt args "ad_text" = some tx)
    (h4 : pyGetOpt args "cta" = some ct) :
    (execute_tool "submit_tiktok_ad" args token r).map Prod.snd =
      Except.ok
        [BackendCall.submitAd
          { campaign_name := cn, objective := ob,
            creative := { text := tx, cta := ct,
                          music_id := pyGetOpt args "music_id" } } token] := by
  simp only [pyGetOpt] at h1 h2 h3 h4
  simp only [execute_tool, pyGetItem, h1, h2, h3, h4, reduceIte, String.reduceEq]
  rfl

/-- Witness for the amended C1: the non-submittable argument set of the
counterexample is forwarded to `submit_ad`. -/
theorem C1_no_gate_witness :
    (execute_tool "submit_tiktok_ad"
        [("campaign_name", "ab"), ("objective", "Conversions"),
         ("ad_text", "Great ad"), ("cta", "Shop Now"),
         ("music_option", "none")]
        "mock_token_12345" {}).map Prod.snd =
      Except.ok
        [BackendCall.submitAd
          { campaign_name := "ab", objective := "Conversions",
            creative := { text := "Great ad", cta := "Shop Now",
                          music_id := none } } "mock_token_12345"] :=
  C1_no_gate
    [("campaign_name", "ab"), ("objective", "Conversions"),
     ("ad_text", "Great ad"), ("cta", "Shop Now"), ("music_option", "none")]
    "mock_token_12345" {} "ab" "Conversions" "Great ad" "Shop Now"
    rfl rfl rfl rfl

/-- C3 counterexample: after `reset` the turn history is indeed empty, but a
subsequent `submit_tiktok_ad` relying on the previously validated id
`music_123` is not rejected with `MUSIC_NOT_VALIDATED`: the dispatcher holds
no validation markers and forwards the submission to the backend. -/
theorem C3_reset_counterexample :
    (reset { access_token := "act.demo.token.tiktok.ads.2024",
             conversation_history :=
               [Turn.user "validate music_123",
                Turn.tool "call_1" "validated"] }).conversation_history = [] ∧
    (execute_tool "submit_tiktok_ad"
        [("campaign_name", "SoluLab"), ("objective", "Conversions"),
         ("ad_text", "Buy now"), ("cta", "Shop Now"),
         ("music_option", "existing"), ("music_id", "music_123")]
        "act.demo.token.tiktok.ads.2024" {}).map Prod.snd =
      Except.ok
        [BackendCall.submitAd
          { campaign_name := "SoluLab", objective := "Conversions",
            creative := { text := "Buy now", cta := "Shop Now",
                          music_id := some "music_123" } }
          "act.demo.token.tiktok.ads.2024"] :=
  ⟨rfl, rfl⟩

/-- C3 amended: `reset` empties the turn history and changes nothing else —
the agent state holds no Draft and no validated-music markers to discard, so
tool dispatch behaves identically before and after a reset; in particular a
subsequent submission is not rejected with `MUSIC_NOT_VALIDATED`. -/
theorem C3_reset_clears_history_only (s : AgentState) (name : String)
    (args : Args) (r : Rand) :
    (reset s).conversation_history = [] ∧
    (reset s).access_token = s.access_token ∧
    execute_tool name args (reset s).access_token r =
      execute_tool name args s.access_token r :=
  ⟨rfl, rfl, rfl⟩

/-- C7 counterexample: a `submit_tiktok_ad` invocation missing
`campaign_name`, and a `validate_music_id` invocation missing `music_id`,
both make the dispatcher raise (`Except.error`, the embedded `KeyError`)
instead of returning a tool-failure result. -/
theorem C7_malformed_args_counterexample :
    execute_tool "submit_tiktok_ad"
        [("objective", "Traffic"), ("ad_text", "x"), ("cta", "Go"),
         ("music_option", "none")]
        "act.demo.token.tiktok.ads.2024" {} =
      Except.error "KeyError: campaign_name" ∧
    execute_tool "validate_music_id" [("file_info", "a.mp3")]
        "act.demo.token.tiktok.ads.2024" {} =
      Except.error "KeyError: music_id" :=
  ⟨rfl, rfl⟩

/-- C7 amended: a `submit_tiktok_ad` invocation missing `campaign_name`
raises the embedded `KeyError`, which aborts the turn's tool loop; `chat`'s
surrounding handler catches it and returns a plain-text reply, and no tool
phase whatsoever can produce anything but a reply, so the error is never
fatal to the process. -/
theorem C7_keyerror_caught (token : String) (args : Args) (r : Rand)
    (rest : List ((String × Args) × Rand)) (summary : String)
    (h : pyGetOpt args "campaign_name" = none) :
    runToolsSeq token ((("submit_tiktok_ad", args), r) :: rest) =
      Except.error "KeyError: campaign_name" ∧
    chatToolPhase token ((("submit_tiktok_ad", args), r) :: rest) summary =
      Except.ok ("❌ Error communicating with AI: KeyError: campaign_name") ∧
    (∀ (calls : List ((String × Args) × Rand)),
      ∃ reply, chatToolPhase token calls summary = Except.ok reply) := by
  simp only [pyGetOpt] at h
  have hx : execute_tool "submit_tiktok_ad" args token r =
      Except.error "KeyError: campaign_name" := by
    simp only [execute_tool, pyGetItem, h, reduceIte, String.reduceEq]
    rfl
  refine ⟨by simp [runToolsSeq, hx], by simp [chatToolPhase, runToolsSeq, hx], ?_⟩
  intro calls
  unfold chatToolPhase
  cases runToolsSeq token calls with
  | ok rs => exact ⟨summary, rfl⟩
  | error e => exact ⟨"❌ Error communicating with AI: " ++ e, rfl⟩

/-- Witness for the amended C7 at a concrete malformed invocation. -/
theorem C7_keyerror_caught_witness :
    runToolsSeq "act.demo.token.tiktok.ads.2024"
        [(("submit_tiktok_ad",
           [("objective", "Traffic"), ("ad_text", "x"), ("cta", "Go")]), {})] =
      Except.error "KeyError: campaign_name" ∧
    chatToolPhase "act.demo.token.tiktok.ads.2024"
        [(("submit_tiktok_ad",
           [("objective", "Traffic"), ("ad_text", "x"), ("cta", "Go")]), {})]
        "done" =
      Except.ok ("❌ Error communicating with AI: KeyError: campaign_name") ∧
    (∀ (calls : List ((String × Args) × Rand)),
      ∃ reply, chatToolPhase "act.demo.token.tiktok.ads.2024" calls "done" =
        Except.ok reply) :=
  C7_keyerror_caught "act.demo.token.tiktok.ads.2024"
    [("objective", "Traffic"), ("ad_text", "x"), ("cta", "Go")] {} [] "done" rfl

end TikTokAgent
